import Mathlib

/-!
Verification of the ServoShutter firmware protocol layer (pyLUMS repository).

The repository contains four firmware variants:
* `main_binary_protocol.cpp` — delimiter-framed binary protocol (0xFF … 0xFE)
  plus a legacy ASCII path; modelled in `ServoShutter.BinaryProtocol`.
* `main.cpp` — structured binary protocol (opcode + fixed argument count,
  with a busy-wait for missing bytes); modelled in `ServoShutter.StructuredBinary`.
* `main_arduino.cpp` — legacy single-character ASCII sketch; modelled in
  `ServoShutter.ArduinoVariant`.
* `main_sonnet.cpp` — line-terminated ASCII protocol; modelled in
  `ServoShutter.SonnetVariant`.

The Position Store (`servo_positions[4]`) is modelled as a `List Nat`;
serial output is modelled as a `List Nat` of bytes (binary variants) or a
`List String` of emitted lines (ASCII variants).  All definitions are
transcribed from the C++ sources.
-/

namespace ServoShutter

/-- Servo pulsewidth constant `PULSEWIDTH_LOW` (all variants). -/
def PULSEWIDTH_LOW : Nat := 1100

/-- Servo pulsewidth constant `PULSEWIDTH_MID` (all variants). -/
def PULSEWIDTH_MID : Nat := 1400

/-- Servo pulsewidth constant `PULSEWIDTH_HIGH` (all variants). -/
def PULSEWIDTH_HIGH : Nat := 1700

/-- The three configured level pulse-widths. -/
def pulseLevels : List Nat := [PULSEWIDTH_LOW, PULSEWIDTH_MID, PULSEWIDTH_HIGH]

namespace BinaryProtocol

/-! ### `main_binary_protocol.cpp` — delimiter-framed binary variant -/

/-- Protocol constant `CMD_START` (0xFF). -/
def CMD_START : Nat := 0xFF

/-- Protocol constant `CMD_END` (0xFE). -/
def CMD_END : Nat := 0xFE

/-- Protocol constant `CMD_MOVE` (0x01). -/
def CMD_MOVE : Nat := 0x01

/-- Protocol constant `CMD_QUERY` (0x02). -/
def CMD_QUERY : Nat := 0x02

/-- Protocol constant `RESP_STATUS_OK` (0x00). -/
def RESP_STATUS_OK : Nat := 0x00

/-- Protocol constant `RESP_STATUS_ERROR` (0x01). -/
def RESP_STATUS_ERROR : Nat := 0x01

/-- `servo_positions[4] = {PULSEWIDTH_HIGH, ...}` — the static initializer. -/
def initPositions : List Nat :=
  [PULSEWIDTH_HIGH, PULSEWIDTH_HIGH, PULSEWIDTH_HIGH, PULSEWIDTH_HIGH]

/-- `moveServo(uint8_t servo, uint8_t position)`: invalid servo (`servo > 3`)
or invalid position (not 0/1/2) returns without touching the store and
without writing any response; otherwise stores the mapped pulsewidth. -/
def moveServo (st : List Nat) (servo positionCode : Nat) : List Nat :=
  if servo > 3 then st
  else
    match positionCode with
    | 0 => st.set servo PULSEWIDTH_LOW
    | 1 => st.set servo PULSEWIDTH_MID
    | 2 => st.set servo PULSEWIDTH_HIGH
    | _ => st

/-- `sendServoPosition(uint8_t servo)`: error frame for `servo > 3`,
otherwise the 6-byte frame `FF 00 servo pos_hi pos_lo FE`. -/
def sendServoPosition (st : List Nat) (servo : Nat) : List Nat :=
  if servo > 3 then
    [CMD_START, RESP_STATUS_ERROR, 0x00, 0x00, CMD_END]
  else
    let position := st.getD servo 0
    [CMD_START, RESP_STATUS_OK, servo, (position / 256) % 256, position % 256, CMD_END]

/-- `processCommand(uint8_t* cmd, size_t len)`: returns the updated store and
the bytes written to serial.  Frames shorter than 2 bytes are discarded;
unknown command types fall through the `switch` with no action. -/
def processCommand (st : List Nat) (cmd : List Nat) : List Nat × List Nat :=
  if cmd.length < 2 then (st, [])
  else if cmd.getD 0 0 = CMD_MOVE then
    (moveServo st (cmd.getD 1 0 / 16 % 16) (cmd.getD 1 0 % 16), [])
  else if cmd.getD 0 0 = CMD_QUERY then
    (st, sendServoPosition st (cmd.getD 1 0 % 16))
  else
    (st, [])

/-- The `static` decoder state of `processSerialInput`: the accumulated
`cmdBuffer` contents (its length is `bufferPos`, capped at 16) and the
`inCommand` flag. -/
structure DecState where
  buffer : List Nat
  inCommand : Bool
  deriving Repr, DecidableEq

/-- The decoder state at firmware start (`bufferPos = 0`, `inCommand = false`). -/
def initDecState : DecState := ⟨[], false⟩

/-- One iteration of the `while (serial.readable())` loop body of
`processSerialInput`, consuming a single byte. -/
def decodeByte (st : List Nat) (ds : DecState) (b : Nat) :
    List Nat × DecState × List Nat :=
  if b = CMD_START then
    (st, ⟨[], true⟩, [])
  else if b = CMD_END ∧ ds.inCommand then
    let r := processCommand st ds.buffer
    (r.1, ⟨ds.buffer, false⟩, r.2)
  else if ds.inCommand ∧ ds.buffer.length < 16 then
    (st, ⟨ds.buffer ++ [b], true⟩, [])
  else
    (st, ds, [])

/-- `processSerialInput()`: drains all bytes available in this poll,
threading the store and decoder state and concatenating serial output. -/
def processSerialInput (st : List Nat) (ds : DecState) (input : List Nat) :
    List Nat × DecState × List Nat :=
  match input with
  | [] => (st, ds, [])
  | b :: rest =>
    let r := decodeByte st ds b
    let r' := processSerialInput r.1 r.2.1 rest
    (r'.1, r'.2.1, r.2.2 ++ r'.2.2)

/-- `handleLegacyCommand(char cmd)`: table mapping the twelve legacy
characters to `moveServo` calls; anything else returns with no action. -/
def handleLegacyCommand (st : List Nat) (c : Char) : List Nat :=
  match c with
  | 'q' => moveServo st 0 0
  | 'a' => moveServo st 0 1
  | 'z' => moveServo st 0 2
  | 'w' => moveServo st 1 0
  | 's' => moveServo st 1 1
  | 'x' => moveServo st 1 2
  | 'e' => moveServo st 2 0
  | 'd' => moveServo st 2 1
  | 'c' => moveServo st 2 2
  | 'r' => moveServo st 3 0
  | 'f' => moveServo st 3 1
  | 'v' => moveServo st 3 2
  | _ => st

/-- The `while (i < bufferPos)` loop of `processLegacyInput`.  Returns the
updated store, the lines printed, and the buffer contents left behind when
the loop exits via the incomplete-query `break` (the source then stores
`'?'` at `buffer[0]` with `bufferPos = 1`). -/
def legacyLoop (st : List Nat) (buf : List Char) :
    List Nat × List String × List Char :=
  match buf with
  | [] => (st, [], [])
  | '?' :: rest =>
    match rest with
    | [] =>
      -- incomplete query: move the `'?'` to the buffer start and break
      (st, [], ['?'])
    | nextChar :: rest' =>
      if '1' ≤ nextChar ∧ nextChar ≤ '4' then
        let servo := nextChar.toNat - '1'.toNat
        let line := toString (servo + 1) ++ ": " ++ toString (st.getD servo 0) ++ "\n"
        let r := legacyLoop st rest'
        (r.1, line :: r.2.1, r.2.2)
      else
        let r := legacyLoop st rest'
        (r.1, "Invalid query\n" :: r.2.1, r.2.2)
  | c :: rest => legacyLoop (handleLegacyCommand st c) rest

/-- `processLegacyInput()` for one poll with chunk `chunk` freshly read.
After the loop the source unconditionally executes `bufferPos = 0;`, so the
characters re-buffered by the incomplete-query branch are discarded. -/
def processLegacyInput (st : List Nat) (chunk : List Char) :
    List Nat × List String :=
  let r := legacyLoop st chunk
  (r.1, r.2.1)

end BinaryProtocol

namespace StructuredBinary

/-! ### `main.cpp` — structured binary variant (opcode + fixed argument count) -/

/-- Command code `CMD_SET_POSITION` (0x01). -/
def CMD_SET_POSITION : Nat := 0x01

/-- Command code `CMD_QUERY_POSITION` (0x02). -/
def CMD_QUERY_POSITION : Nat := 0x02

/-- Command code `CMD_HANDSHAKE` (0x03). -/
def CMD_HANDSHAKE : Nat := 0x03

/-- Position value code `POS_LOW` (0x01). -/
def POS_LOW : Nat := 0x01

/-- Position value code `POS_MID` (0x02). -/
def POS_MID : Nat := 0x02

/-- Position value code `POS_HIGH` (0x03). -/
def POS_HIGH : Nat := 0x03

/-- Response code `RESP_SUCCESS` (0x00). -/
def RESP_SUCCESS : Nat := 0x00

/-- Response code `RESP_ERROR` (0xFF). -/
def RESP_ERROR : Nat := 0xFF

/-- Response code `RESP_HANDSHAKE` (0xBB). -/
def RESP_HANDSHAKE : Nat := 0xBB

/-- `servo_positions[4]` static initializer: all `PULSEWIDTH_HIGH`. -/
def initPositions : List Nat :=
  [PULSEWIDTH_HIGH, PULSEWIDTH_HIGH, PULSEWIDTH_HIGH, PULSEWIDTH_HIGH]

/-- The `switch(position)` at the head of `setServoPosition`: maps the
position value code to its pulsewidth, or fails for an unknown code. -/
def positionPulse (positionCode : Nat) : Option Nat :=
  if positionCode = POS_LOW then some PULSEWIDTH_LOW
  else if positionCode = POS_MID then some PULSEWIDTH_MID
  else if positionCode = POS_HIGH then some PULSEWIDTH_HIGH
  else none

/-- `setServoPosition(uint8_t servo_index, uint8_t position)`: returns the
updated store and the response bytes written.  An unknown position code
writes `RESP_ERROR` and returns before the index check; a valid position
with `servo_index <= 3` (the `>= 0` half of the C test is vacuous on
`uint8_t`) stores the pulsewidth and writes `RESP_SUCCESS`, otherwise
writes `RESP_ERROR`. -/
def setServoPosition (st : List Nat) (servo_index positionCode : Nat) :
    List Nat × List Nat :=
  match positionPulse positionCode with
  | none => (st, [RESP_ERROR])
  | some pulsewidth =>
    if servo_index ≤ 3 then
      (st.set servo_index pulsewidth, [RESP_SUCCESS])
    else
      (st, [RESP_ERROR])

/-- `queryServoPosition(uint8_t servo_index)`: success byte, index byte and
the stored position as 4 bytes MSB-first, or a single `RESP_ERROR` byte. -/
def queryServoPosition (st : List Nat) (servo_index : Nat) : List Nat :=
  if servo_index ≤ 3 then
    let p := st.getD servo_index 0
    [RESP_SUCCESS, servo_index,
      (p / 2 ^ 24) % 256, (p / 2 ^ 16) % 256, (p / 2 ^ 8) % 256, p % 256]
  else
    [RESP_ERROR]

/-- Outcome of one `processSerialInput()` call: either it completes, with
the updated store, the response bytes written, and the bytes left unread in
the serial buffer — or it blocks forever in a
`while (Serial.available() < n) delay(5);` loop because the stream never
delivers the missing argument bytes. -/
inductive PollResult where
  | done (st : List Nat) (out : List Nat) (rest : List Nat)
  | blocked
  deriving Repr, DecidableEq

/-- `processSerialInput()`: reads one command byte and dispatches.  `input`
is the entire byte sequence the serial line will ever deliver from this
point on; when the opcode requires more argument bytes than `input` holds,
the source spins in `while (Serial.available() < n) delay(5);` with no
timeout, which is modelled as `PollResult.blocked`. -/
def processSerialInput (st : List Nat) (input : List Nat) : PollResult :=
  match input with
  | [] => .done st [] []
  | cmd :: rest =>
    if cmd = CMD_SET_POSITION then
      match rest with
      | servo_index :: positionCode :: rest' =>
        let r := setServoPosition st servo_index positionCode
        .done r.1 r.2 rest'
      | _ => .blocked
    else if cmd = CMD_QUERY_POSITION then
      match rest with
      | servo_index :: rest' => .done st (queryServoPosition st servo_index) rest'
      | _ => .blocked
    else if cmd = CMD_HANDSHAKE then
      .done st [RESP_HANDSHAKE] rest
    else
      .done st [RESP_ERROR] rest

end StructuredBinary

namespace ArduinoVariant

/-! ### `main_arduino.cpp` — legacy single-character ASCII sketch -/

/-- `int servo_positions[4] = {2000, 2000, 2000, 2000};` -/
def initPositions : List Nat := [2000, 2000, 2000, 2000]

/-- `handleServoCommand(char cmd)`: the source's `switch` only has cases
for servo 1 (`'q'`, `'a'`, `'z'`); the remaining nine characters are left
to a `// Repeat for other servos...` comment and fall through with no
action. -/
def handleServoCommand (st : List Nat) (c : Char) : List Nat :=
  match c with
  | 'q' => st.set 0 1100
  | 'a' => st.set 0 1400
  | 'z' => st.set 0 1700
  | _ => st

/-- The Position Store after `setup()` has run
`handleServoCommand` on `'z'`, `'x'`, `'c'`, `'v'`. -/
def setupPositions : List Nat :=
  handleServoCommand
    (handleServoCommand (handleServoCommand (handleServoCommand initPositions 'z') 'x') 'c') 'v'

/-- `processSerialInput()`: one poll reads one character; a `'?'` consumes a
second character only when one is already available (a lone `'?'` is simply
dropped — there is no `else` branch).  Returns the store, the lines printed
(`Serial.println` terminates with `"\r\n"`), and the unread characters. -/
def processSerialInput (st : List Nat) (avail : List Char) :
    List Nat × List String × List Char :=
  match avail with
  | [] => (st, [], [])
  | '?' :: rest =>
    match rest with
    | [] => (st, [], [])
    | nextChar :: rest' =>
      if '1' ≤ nextChar ∧ nextChar ≤ '4' then
        let servo_index := nextChar.toNat - '1'.toNat
        (st, [toString (servo_index + 1) ++ ": " ++ toString (st.getD servo_index 0) ++ "\r\n"],
          rest')
      else
        (st, ["Invalid query\r\n"], rest')
  | c :: rest => (handleServoCommand st c, [], rest)

end ArduinoVariant

namespace SonnetVariant

/-! ### `main_sonnet.cpp` — line-terminated ASCII variant -/

/-- `servo_positions[4]` static initializer: all `PULSEWIDTH_HIGH`. -/
def initPositions : List Nat :=
  [PULSEWIDTH_HIGH, PULSEWIDTH_HIGH, PULSEWIDTH_HIGH, PULSEWIDTH_HIGH]

/-- `handleServoCommand(char cmd)`: full twelve-character table; the
`default` case prints a diagnostic.  Returns the store and printed lines. -/
def handleServoCommand (st : List Nat) (c : Char) : List Nat × List String :=
  match c with
  | 'q' => (st.set 0 PULSEWIDTH_LOW, [])
  | 'a' => (st.set 0 PULSEWIDTH_MID, [])
  | 'z' => (st.set 0 PULSEWIDTH_HIGH, [])
  | 'w' => (st.set 1 PULSEWIDTH_LOW, [])
  | 's' => (st.set 1 PULSEWIDTH_MID, [])
  | 'x' => (st.set 1 PULSEWIDTH_HIGH, [])
  | 'e' => (st.set 2 PULSEWIDTH_LOW, [])
  | 'd' => (st.set 2 PULSEWIDTH_MID, [])
  | 'c' => (st.set 2 PULSEWIDTH_HIGH, [])
  | 'r' => (st.set 3 PULSEWIDTH_LOW, [])
  | 'f' => (st.set 3 PULSEWIDTH_MID, [])
  | 'v' => (st.set 3 PULSEWIDTH_HIGH, [])
  | _ => (st, ["Invalid servo command: " ++ String.mk [c] ++ "\n"])

/-- The characters of the `strchr("qazwsxedcrfv", ...)` alphabet. -/
def servoChars : List Char := ['q', 'a', 'z', 'w', 's', 'x', 'e', 'd', 'c', 'r', 'f', 'v']

/-- `sendQueryResponse(int servo_index)`: the line `"%d: %u\r\n"`. -/
def sendQueryResponse (st : List Nat) (servo_index : Nat) : String :=
  toString (servo_index + 1) ++ ": " ++ toString (st.getD servo_index 0) ++ "\r\n"

/-- `processCommand(const char* cmd)` on the null-terminated buffer contents
`cmd` (called only with a non-empty buffer; `cmd.getD 1` reads the
terminating NUL when the command is a single character).  `strchr` also
matches the NUL terminator of its pattern, so a NUL first byte takes the
servo-command branch. -/
def processCommand (st : List Nat) (cmd : List Char) : List Nat × List String :=
  if cmd.getD 0 (Char.ofNat 0) = '?' ∧ '1' ≤ cmd.getD 1 (Char.ofNat 0) ∧
      cmd.getD 1 (Char.ofNat 0) ≤ '4' then
    (st, [sendQueryResponse st ((cmd.getD 1 (Char.ofNat 0)).toNat - '1'.toNat)])
  else if cmd.getD 0 (Char.ofNat 0) ∈ servoChars ∨ cmd.getD 0 (Char.ofNat 0) = Char.ofNat 0 then
    handleServoCommand st (cmd.getD 0 (Char.ofNat 0))
  else
    (st, ["Unknown command: " ++ String.mk cmd ++ "\n"])

/-- One iteration of the character loop in `processSerialInput`: `buf` is
the persistent `cmd_buffer` contents (`cmd_pos` is its length).  A
terminator processes a non-empty buffer and resets it; otherwise the
character is appended only while `cmd_pos < sizeof(cmd_buffer) - 1 = 127`,
and is silently dropped once the buffer is full. -/
def processSerialByte (st : List Nat) (buf : List Char) (c : Char) :
    List Nat × List Char × List String :=
  if c = '\r' ∨ c = '\n' then
    if buf.length > 0 then
      let r := processCommand st buf
      (r.1, [], r.2)
    else
      (st, [], [])
  else if buf.length < 127 then
    (st, buf ++ [c], [])
  else
    (st, buf, [])

/-- `processSerialInput()` over the characters read in one or more polls:
folds `processSerialByte` over the input, concatenating printed lines. -/
def processSerialInput (st : List Nat) (buf : List Char) (input : List Char) :
    List Nat × List Char × List String :=
  match input with
  | [] => (st, buf, [])
  | c :: rest =>
    let r := processSerialByte st buf c
    let r' := processSerialInput r.1 r.2.1 rest
    (r'.1, r'.2.1, r.2.2 ++ r'.2.2)

end SonnetVariant

/-! ## Helper lemmas -/

/-- Writing one cell of the store leaves every read either unchanged or
equal to the written value. -/
theorem getD_set_or (l : List Nat) (n v i : Nat) :
    (l.set n v).getD i 0 = l.getD i 0 ∨ (l.set n v).getD i 0 = v := by
  induction l generalizing n i with
  | nil => left; rfl
  | cons a t ih =>
    cases n with
    | zero =>
      cases i with
      | zero => right; rfl
      | succ j => left; rfl
    | succ m =>
      cases i with
      | zero => left; rfl
      | succ j => exact ih m j

/-- Writing a configured pulse level into the store keeps every cell either
unchanged or at a configured pulse level. -/
theorem setLevel_getD (l : List Nat) (n v i : Nat) (hv : v ∈ pulseLevels) :
    (l.set n v).getD i 0 = l.getD i 0 ∨ (l.set n v).getD i 0 ∈ pulseLevels :=
  (getD_set_or l n v i).imp id (fun h => by rw [h]; exact hv)

/-- `moveServo` leaves each store cell unchanged or at a configured level. -/
theorem moveServo_getD (st : List Nat) (servo p i : Nat) :
    (BinaryProtocol.moveServo st servo p).getD i 0 = st.getD i 0 ∨
      (BinaryProtocol.moveServo st servo p).getD i 0 ∈ pulseLevels := by
  by_cases hs : servo > 3
  · simp [BinaryProtocol.moveServo, hs]
  · unfold BinaryProtocol.moveServo
    rw [if_neg hs]
    rcases p with _ | _ | _ | n
    · exact setLevel_getD st servo PULSEWIDTH_LOW i (by decide)
    · exact setLevel_getD st servo PULSEWIDTH_MID i (by decide)
    · exact setLevel_getD st servo PULSEWIDTH_HIGH i (by decide)
    · exact Or.inl rfl

/-- `processCommand` leaves each store cell unchanged or at a configured
level. -/
theorem processCommand_getD (st : List Nat) (cmd : List Nat) (i : Nat) :
    (BinaryProtocol.processCommand st cmd).1.getD i 0 = st.getD i 0 ∨
      (BinaryProtocol.processCommand st cmd).1.getD i 0 ∈ pulseLevels := by
  unfold BinaryProtocol.processCommand
  split
  · exact Or.inl rfl
  · split
    · exact moveServo_getD st _ _ i
    · split
      · exact Or.inl rfl
      · exact Or.inl rfl

/-- One decoded byte leaves each store cell unchanged or at a configured
level. -/
theorem decodeByte_getD (st : List Nat) (ds : BinaryProtocol.DecState) (b i : Nat) :
    (BinaryProtocol.decodeByte st ds b).1.getD i 0 = st.getD i 0 ∨
      (BinaryProtocol.decodeByte st ds b).1.getD i 0 ∈ pulseLevels := by
  unfold BinaryProtocol.decodeByte
  split
  · exact Or.inl rfl
  · split
    · exact processCommand_getD st ds.buffer i
    · split
      · exact Or.inl rfl
      · exact Or.inl rfl

/-- Any byte sequence fed to the delimiter decoder leaves each store cell
unchanged or at a configured level. -/
theorem processSerialInput_getD (input : List Nat) (st : List Nat)
    (ds : BinaryProtocol.DecState) (i : Nat) :
    (BinaryProtocol.processSerialInput st ds input).1.getD i 0 = st.getD i 0 ∨
      (BinaryProtocol.processSerialInput st ds input).1.getD i 0 ∈ pulseLevels := by
  induction input generalizing st ds with
  | nil => exact Or.inl rfl
  | cons b rest ih =>
    have h1 := decodeByte_getD st ds b i
    have h2 := ih (BinaryProtocol.decodeByte st ds b).1 (BinaryProtocol.decodeByte st ds b).2.1
    show (BinaryProtocol.processSerialInput (BinaryProtocol.decodeByte st ds b).1
        (BinaryProtocol.decodeByte st ds b).2.1 rest).1.getD i 0 = st.getD i 0 ∨
      (BinaryProtocol.processSerialInput (BinaryProtocol.decodeByte st ds b).1
        (BinaryProtocol.decodeByte st ds b).2.1 rest).1.getD i 0 ∈ pulseLevels
    rcases h2 with h2 | h2
    · rw [h2]; exact h1
    · exact Or.inr h2

/-- The pulsewidth chosen by `setServoPosition`'s position-code mapping is
always a configured level. -/
theorem structured_pulse_mem (p v : Nat)
    (h : StructuredBinary.positionPulse p = some v) : v ∈ pulseLevels := by
  unfold StructuredBinary.positionPulse at h
  by_cases h1 : p = StructuredBinary.POS_LOW
  · rw [if_pos h1] at h; cases h; decide
  · rw [if_neg h1] at h
    by_cases h2 : p = StructuredBinary.POS_MID
    · rw [if_pos h2] at h; cases h; decide
    · rw [if_neg h2] at h
      by_cases h3 : p = StructuredBinary.POS_HIGH
      · rw [if_pos h3] at h; cases h; decide
      · rw [if_neg h3] at h; exact Option.noConfusion h

/-- `setServoPosition` leaves each store cell unchanged or at a configured
level. -/
theorem setServoPosition_getD (st : List Nat) (idx p i : Nat) :
    (StructuredBinary.setServoPosition st idx p).1.getD i 0 = st.getD i 0 ∨
      (StructuredBinary.setServoPosition st idx p).1.getD i 0 ∈ pulseLevels := by
  unfold StructuredBinary.setServoPosition
  cases hpw : StructuredBinary.positionPulse p with
  | none => exact Or.inl rfl
  | some pulsewidth =>
    show ((if idx ≤ 3 then (st.set idx pulsewidth, [StructuredBinary.RESP_SUCCESS])
        else (st, [StructuredBinary.RESP_ERROR])) :
          List Nat × List Nat).1.getD i 0 = st.getD i 0 ∨
      ((if idx ≤ 3 then (st.set idx pulsewidth, [StructuredBinary.RESP_SUCCESS])
        else (st, [StructuredBinary.RESP_ERROR])) :
          List Nat × List Nat).1.getD i 0 ∈ pulseLevels
    by_cases hi : idx ≤ 3
    · rw [if_pos hi]
      exact setLevel_getD st idx pulsewidth i (structured_pulse_mem p pulsewidth hpw)
    · rw [if_neg hi]
      exact Or.inl rfl

/-- The Sonnet variant's `handleServoCommand` leaves each store cell
unchanged or at a configured level. -/
theorem sonnet_handleServoCommand_getD (st : List Nat) (c : Char) (i : Nat) :
    (SonnetVariant.handleServoCommand st c).1.getD i 0 = st.getD i 0 ∨
      (SonnetVariant.handleServoCommand st c).1.getD i 0 ∈ pulseLevels := by
  unfold SonnetVariant.handleServoCommand
  split <;>
    first
      | exact Or.inl rfl
      | exact setLevel_getD st _ _ i (by decide)

/-- Delimiter-decoder runs compose over concatenation of the input: feeding
`xs ++ ys` equals feeding `xs`, then `ys` from the resulting state, with the
outputs concatenated. -/
theorem bp_processSerialInput_append (xs ys : List Nat) (st : List Nat)
    (ds : BinaryProtocol.DecState) :
    BinaryProtocol.processSerialInput st ds (xs ++ ys) =
      ((BinaryProtocol.processSerialInput (BinaryProtocol.processSerialInput st ds xs).1
          (BinaryProtocol.processSerialInput st ds xs).2.1 ys).1,
        (BinaryProtocol.processSerialInput (BinaryProtocol.processSerialInput st ds xs).1
          (BinaryProtocol.processSerialInput st ds xs).2.1 ys).2.1,
        (BinaryProtocol.processSerialInput st ds xs).2.2 ++
          (BinaryProtocol.processSerialInput (BinaryProtocol.processSerialInput st ds xs).1
            (BinaryProtocol.processSerialInput st ds xs).2.1 ys).2.2) := by
  induction xs generalizing st ds with
  | nil => rfl
  | cons b rest ih =>
    simp only [List.cons_append, BinaryProtocol.processSerialInput, List.append_eq]
    rw [ih]
    simp [List.append_assoc]

/-- A terminator byte always leaves the Sonnet variant's command buffer
empty. -/
theorem sonnet_byte_newline_clears (st : List Nat) (buf : List Char) :
    (SonnetVariant.processSerialByte st buf '\n').2.1 = [] := by
  unfold SonnetVariant.processSerialByte
  rw [if_pos (Or.inr rfl)]
  split <;> rfl

/-- After any poll input ending in a line feed, the Sonnet variant's
command buffer is empty. -/
theorem sonnet_newline_clears (input : List Char) (st : List Nat) (buf : List Char) :
    (SonnetVariant.processSerialInput st buf (input ++ ['\n'])).2.1 = [] := by
  induction input generalizing st buf with
  | nil => exact sonnet_byte_newline_clears st buf
  | cons c rest ih =>
    exact ih (SonnetVariant.processSerialByte st buf c).1
      (SonnetVariant.processSerialByte st buf c).2.1

/-- Sonnet-decoder runs compose over concatenation of the input. -/
theorem sonnet_processSerialInput_append (xs ys : List Char) (st : List Nat)
    (buf : List Char) :
    SonnetVariant.processSerialInput st buf (xs ++ ys) =
      ((SonnetVariant.processSerialInput (SonnetVariant.processSerialInput st buf xs).1
          (SonnetVariant.processSerialInput st buf xs).2.1 ys).1,
        (SonnetVariant.processSerialInput (SonnetVariant.processSerialInput st buf xs).1
          (SonnetVariant.processSerialInput st buf xs).2.1 ys).2.1,
        (SonnetVariant.processSerialInput st buf xs).2.2 ++
          (SonnetVariant.processSerialInput (SonnetVariant.processSerialInput st buf xs).1
            (SonnetVariant.processSerialInput st buf xs).2.1 ys).2.2) := by
  induction xs generalizing st buf with
  | nil => rfl
  | cons c rest ih =>
    simp only [List.cons_append, SonnetVariant.processSerialInput, List.append_eq]
    rw [ih]
    simp [List.append_assoc]

/-- An out-of-range servo number makes `moveServo` return with no store
change. -/
theorem moveServo_bad_servo (st : List Nat) (servo p : Nat) (h : 3 < servo) :
    BinaryProtocol.moveServo st servo p = st := by
  unfold BinaryProtocol.moveServo
  rw [if_pos h]

/-- An out-of-range position code makes `moveServo` return with no store
change. -/
theorem moveServo_bad_position (st : List Nat) (servo p : Nat) (h : 2 < p) :
    BinaryProtocol.moveServo st servo p = st := by
  unfold BinaryProtocol.moveServo
  by_cases hs : servo > 3
  · rw [if_pos hs]
  · rw [if_neg hs]
    rcases p with _ | _ | _ | n
    · exact absurd h (by decide)
    · exact absurd h (by decide)
    · exact absurd h (by decide)
    · rfl

/-- A Move frame in the delimiter variant never produces output, and an
invalid channel or level leaves the store untouched. -/
theorem processCommand_move_invalid (st : List Nat) (param : Nat) (rest : List Nat)
    (h : 3 < param / 16 % 16 ∨ 2 < param % 16) :
    BinaryProtocol.processCommand st (BinaryProtocol.CMD_MOVE :: param :: rest) = (st, []) := by
  have hlen : ¬((BinaryProtocol.CMD_MOVE :: param :: rest).length < 2) := by
    simp only [List.length_cons]
    omega
  have hmv : (BinaryProtocol.CMD_MOVE :: param :: rest).getD 0 0 = BinaryProtocol.CMD_MOVE := rfl
  have hp : (BinaryProtocol.CMD_MOVE :: param :: rest).getD 1 0 = param := rfl
  unfold BinaryProtocol.processCommand
  rw [if_neg hlen, if_pos hmv, hp]
  rcases h with h | h
  · rw [moveServo_bad_servo st _ _ h]
  · rw [moveServo_bad_position st _ _ h]

/-- An unknown position value code makes `setServoPosition` write
`RESP_ERROR` and leave the store untouched. -/
theorem setServoPosition_bad_position (st : List Nat) (idx p : Nat)
    (h : p = 0 ∨ 3 < p) :
    StructuredBinary.setServoPosition st idx p = (st, [StructuredBinary.RESP_ERROR]) := by
  have h1 : p ≠ StructuredBinary.POS_LOW := by show p ≠ 1; omega
  have h2 : p ≠ StructuredBinary.POS_MID := by show p ≠ 2; omega
  have h3 : p ≠ StructuredBinary.POS_HIGH := by show p ≠ 3; omega
  have hp : StructuredBinary.positionPulse p = none := by
    unfold StructuredBinary.positionPulse
    rw [if_neg h1, if_neg h2, if_neg h3]
  unfold StructuredBinary.setServoPosition
  rw [hp]

/-- An out-of-range servo index makes `setServoPosition` write `RESP_ERROR`
and leave the store untouched. -/
theorem setServoPosition_bad_index (st : List Nat) (idx p : Nat) (h : 3 < idx) :
    StructuredBinary.setServoPosition st idx p = (st, [StructuredBinary.RESP_ERROR]) := by
  unfold StructuredBinary.setServoPosition
  cases hpw : StructuredBinary.positionPulse p with
  | none => rfl
  | some pw =>
    show (if idx ≤ 3 then (st.set idx pw, [StructuredBinary.RESP_SUCCESS])
        else (st, [StructuredBinary.RESP_ERROR])) = (st, [StructuredBinary.RESP_ERROR])
    rw [if_neg (by omega)]

/-- When the first byte of a full frame is none of the three known opcodes,
the structured variant answers with the error byte and changes nothing. -/
theorem structured_unknown_cmd (st : List Nat) (cmd : Nat) (rest : List Nat)
    (h1 : cmd ≠ StructuredBinary.CMD_SET_POSITION)
    (h2 : cmd ≠ StructuredBinary.CMD_QUERY_POSITION)
    (h3 : cmd ≠ StructuredBinary.CMD_HANDSHAKE) :
    StructuredBinary.processSerialInput st (cmd :: rest) =
      StructuredBinary.PollResult.done st [StructuredBinary.RESP_ERROR] rest := by
  show (if cmd = StructuredBinary.CMD_SET_POSITION then _
      else if cmd = StructuredBinary.CMD_QUERY_POSITION then _
      else if cmd = StructuredBinary.CMD_HANDSHAKE then _
      else StructuredBinary.PollResult.done st [StructuredBinary.RESP_ERROR] rest) = _
  rw [if_neg h1, if_neg h2, if_neg h3]

/-- When the first byte of a delimiter frame is neither `CMD_MOVE` nor
`CMD_QUERY`, `processCommand` falls through the `switch` with no response
and no store change. -/
theorem delimiter_unknown_cmd (st : List Nat) (cmdType param : Nat) (rest : List Nat)
    (h1 : cmdType ≠ BinaryProtocol.CMD_MOVE) (h2 : cmdType ≠ BinaryProtocol.CMD_QUERY) :
    BinaryProtocol.processCommand st (cmdType :: param :: rest) = (st, []) := by
  have hlen : ¬((cmdType :: param :: rest).length < 2) := by
    simp only [List.length_cons]
    omega
  have hm : ¬((cmdType :: param :: rest).getD 0 0 = BinaryProtocol.CMD_MOVE) := h1
  have hq : ¬((cmdType :: param :: rest).getD 0 0 = BinaryProtocol.CMD_QUERY) := h2
  unfold BinaryProtocol.processCommand
  rw [if_neg hlen, if_neg hm, if_neg hq]

/-- When the first character of a Sonnet line is not a query, not a servo
command character, and not NUL, `processCommand` prints the
unrecognized-command diagnostic and changes nothing. -/
theorem sonnet_unknown_cmd (st : List Nat) (cmd : List Char)
    (h1 : cmd.getD 0 (Char.ofNat 0) ≠ '?')
    (h2 : cmd.getD 0 (Char.ofNat 0) ∉ SonnetVariant.servoChars)
    (h3 : cmd.getD 0 (Char.ofNat 0) ≠ Char.ofNat 0) :
    SonnetVariant.processCommand st cmd =
      (st, ["Unknown command: " ++ String.mk cmd ++ "\n"]) := by
  unfold SonnetVariant.processCommand
  rw [if_neg (fun hc => h1 hc.1), if_neg (fun hc => hc.elim h2 h3)]

/-- Once the Sonnet command buffer is full, a further non-terminator byte is
silently dropped. -/
theorem sonnet_full_buffer_drops (st : List Nat) (buf : List Char) (c : Char)
    (hb : 127 ≤ buf.length) (hr : c ≠ '\r') (hn : c ≠ '\n') :
    SonnetVariant.processSerialByte st buf c = (st, buf, []) := by
  unfold SonnetVariant.processSerialByte
  rw [if_neg (fun hc => hc.elim hr hn), if_neg (by omega)]

/-! ## Claim theorems -/

/-- C1: the claim says Move(c, l) then Query(c) returns l's configured
microsecond value in every protocol variant.  In the `main_arduino.cpp`
variant only servo 0's command characters are implemented, so the Move for
channel 1 to Low (character `'w'`) is a no-op and the subsequent query
`?2` reports the never-written startup value 2000, not 1100. -/
theorem arduino_move_then_query_returns_2000 :
    ArduinoVariant.setupPositions = [1700, 2000, 2000, 2000]
  ∧ ArduinoVariant.processSerialInput ArduinoVariant.setupPositions ['w'] =
      ([1700, 2000, 2000, 2000], [], [])
  ∧ (ArduinoVariant.processSerialInput [1700, 2000, 2000, 2000] ['?', '2']).2.1 =
      ["2: 2000\r\n"] :=
  ⟨by decide, by decide, by decide⟩

/-- C2 (counterexample): the inbound delimiter frame `FF 01 02 FE` (Move,
channel 0, level 2 = High) elicits no response bytes at all — `moveServo`
is fire-and-forget — contradicting the claimed single success status
byte. -/
theorem delimiter_move_frame_emits_no_status_byte :
    (BinaryProtocol.processSerialInput BinaryProtocol.initPositions
      BinaryProtocol.initDecState [0xFF, 0x01, 0x02, 0xFE]).2.2 = [] := by
  decide

/-- C2 (amended): in the delimiter-binary variant, the Move frame
`FF 01 02 FE` elicits no response bytes and sets channel 0 to 1700, and
the Query frame `FF 02 00 FE` elicits exactly `FF 00 00 06 A4 FE` when the
Position Store holds 1700 for channel 0. -/
theorem delimiter_move_and_query_scenario :
    BinaryProtocol.processSerialInput [1100, 1100, 1100, 1100] BinaryProtocol.initDecState
        [0xFF, 0x01, 0x02, 0xFE] = ([1700, 1100, 1100, 1100], ⟨[0x01, 0x02], false⟩, [])
  ∧ (BinaryProtocol.processSerialInput BinaryProtocol.initPositions
        BinaryProtocol.initDecState [0xFF, 0x02, 0x00, 0xFE]).2.2 =
      [0xFF, 0x00, 0x00, 0x06, 0xA4, 0xFE] :=
  ⟨by decide, by decide⟩

/-- C3 (counterexample): a Move frame with out-of-range channel 7
(`FF 01 72 FE`) in the delimiter-binary variant leaves the Position Store
unchanged but emits no bytes whatsoever — there is no error response,
contradicting the claim. -/
theorem delimiter_invalid_move_emits_nothing :
    BinaryProtocol.processSerialInput BinaryProtocol.initPositions
      BinaryProtocol.initDecState [0xFF, 0x01, 0x72, 0xFE] =
      (BinaryProtocol.initPositions, ⟨[0x01, 0x72], false⟩, []) := by
  decide

/-- C3 (amended): a Move with an out-of-range channel or level never
mutates the Position Store in either binary variant; the structured-binary
variant answers with the single error byte `RESP_ERROR`, while the
delimiter-binary variant emits no response bytes at all. -/
theorem invalid_move_never_mutates :
    (∀ st servo p, 3 < servo → BinaryProtocol.moveServo st servo p = st)
  ∧ (∀ st servo p, 2 < p → BinaryProtocol.moveServo st servo p = st)
  ∧ (∀ st param rest, 3 < param / 16 % 16 ∨ 2 < param % 16 →
      BinaryProtocol.processCommand st (BinaryProtocol.CMD_MOVE :: param :: rest) = (st, []))
  ∧ (∀ st idx p, p = 0 ∨ 3 < p → StructuredBinary.setServoPosition st idx p =
      (st, [StructuredBinary.RESP_ERROR]))
  ∧ (∀ st idx p, 3 < idx → StructuredBinary.setServoPosition st idx p =
      (st, [StructuredBinary.RESP_ERROR])) :=
  ⟨moveServo_bad_servo, moveServo_bad_position, processCommand_move_invalid,
    setServoPosition_bad_position, setServoPosition_bad_index⟩

/-- Witness for C3's amended theorem at concrete inputs: channel 7 and
level 9 Moves are rejected without mutation in both binary variants. -/
theorem invalid_move_never_mutates_witness :
    BinaryProtocol.moveServo [1700, 1700, 1700, 1700] 7 2 = [1700, 1700, 1700, 1700]
  ∧ BinaryProtocol.moveServo [1700, 1700, 1700, 1700] 0 9 = [1700, 1700, 1700, 1700]
  ∧ BinaryProtocol.processCommand [1700, 1700, 1700, 1700]
      [BinaryProtocol.CMD_MOVE, 0x72] = ([1700, 1700, 1700, 1700], [])
  ∧ StructuredBinary.setServoPosition [1700, 1700, 1700, 1700] 0 9 =
      ([1700, 1700, 1700, 1700], [StructuredBinary.RESP_ERROR])
  ∧ StructuredBinary.setServoPosition [1700, 1700, 1700, 1700] 7 2 =
      ([1700, 1700, 1700, 1700], [StructuredBinary.RESP_ERROR]) :=
  ⟨invalid_move_never_mutates.1 _ 7 2 (by decide),
    invalid_move_never_mutates.2.1 _ 0 9 (by decide),
    invalid_move_never_mutates.2.2.1 _ 0x72 [] (Or.inl (by decide)),
    invalid_move_never_mutates.2.2.2.1 _ 0 9 (Or.inr (by decide)),
    invalid_move_never_mutates.2.2.2.2 _ 7 2 (by decide)⟩

/-- C4: the claim says no step of command processing may stall the poll
loop waiting for bytes that never arrive.  In the structured-binary
variant (`main.cpp`), a Move opcode with fewer than two argument bytes, or
a Query opcode with none, spins forever in
`while (Serial.available() < n) delay(5);` — the poll call blocks. -/
theorem structured_short_frame_blocks :
    StructuredBinary.processSerialInput StructuredBinary.initPositions
        [StructuredBinary.CMD_SET_POSITION] = StructuredBinary.PollResult.blocked
  ∧ StructuredBinary.processSerialInput StructuredBinary.initPositions
        [StructuredBinary.CMD_SET_POSITION, 0x00] = StructuredBinary.PollResult.blocked
  ∧ StructuredBinary.processSerialInput StructuredBinary.initPositions
        [StructuredBinary.CMD_QUERY_POSITION] = StructuredBinary.PollResult.blocked :=
  ⟨by decide, by decide, by decide⟩

/-- C5: chunking invariance holds for the delimiter-binary decoder (runs
compose over any split of the byte stream), but fails for the legacy ASCII
decoder of `main_binary_protocol.cpp`: the query `?1` fed in one poll
prints the query response, while `?` and `1` fed in separate polls print
nothing, because the re-buffered `'?'` is clobbered by the unconditional
`bufferPos = 0;` after the processing loop. -/
theorem delimiter_chunking_invariant_legacy_divergence :
    (∀ (st : List Nat) (ds : BinaryProtocol.DecState) (xs ys : List Nat),
      BinaryProtocol.processSerialInput st ds (xs ++ ys) =
        ((BinaryProtocol.processSerialInput (BinaryProtocol.processSerialInput st ds xs).1
            (BinaryProtocol.processSerialInput st ds xs).2.1 ys).1,
          (BinaryProtocol.processSerialInput (BinaryProtocol.processSerialInput st ds xs).1
            (BinaryProtocol.processSerialInput st ds xs).2.1 ys).2.1,
          (BinaryProtocol.processSerialInput st ds xs).2.2 ++
            (BinaryProtocol.processSerialInput (BinaryProtocol.processSerialInput st ds xs).1
              (BinaryProtocol.processSerialInput st ds xs).2.1 ys).2.2))
  ∧ (BinaryProtocol.processLegacyInput BinaryProtocol.initPositions ['?', '1']).2 =
      ["1: 1700\n"]
  ∧ (BinaryProtocol.processLegacyInput BinaryProtocol.initPositions ['?']).2 = []
  ∧ (BinaryProtocol.processLegacyInput
      (BinaryProtocol.processLegacyInput BinaryProtocol.initPositions ['?']).1 ['1']).2 = [] :=
  ⟨fun st ds xs ys => bp_processSerialInput_append xs ys st ds,
    by decide, by decide, by decide⟩

/-- C6 (counterexample): the delimiter frame `FF 05 00 FE`, whose first
payload byte 0x05 is not a known command, produces no response bytes at
all — the delimiter-binary variant does not emit an error response,
contradicting the claim. -/
theorem delimiter_unknown_opcode_emits_nothing :
    BinaryProtocol.processSerialInput BinaryProtocol.initPositions
      BinaryProtocol.initDecState [0xFF, 0x05, 0x00, 0xFE] =
      (BinaryProtocol.initPositions, ⟨[0x05, 0x00], false⟩, []) := by
  decide

/-- C6 (amended): for a frame whose first byte is outside the known
command set, the structured-binary variant answers with the error byte,
the delimiter-binary variant silently discards the frame, and the Sonnet
ASCII variant prints an unrecognized-command diagnostic; in all three
cases the Position Store is left unchanged (each equation returns `st`). -/
theorem unknown_command_behavior :
    (∀ st cmd rest, cmd ≠ StructuredBinary.CMD_SET_POSITION →
        cmd ≠ StructuredBinary.CMD_QUERY_POSITION →
        cmd ≠ StructuredBinary.CMD_HANDSHAKE →
        StructuredBinary.processSerialInput st (cmd :: rest) =
          StructuredBinary.PollResult.done st [StructuredBinary.RESP_ERROR] rest)
  ∧ (∀ st cmdType param rest, cmdType ≠ BinaryProtocol.CMD_MOVE →
        cmdType ≠ BinaryProtocol.CMD_QUERY →
        BinaryProtocol.processCommand st (cmdType :: param :: rest) = (st, []))
  ∧ (∀ st cmd, cmd.getD 0 (Char.ofNat 0) ≠ '?' →
        cmd.getD 0 (Char.ofNat 0) ∉ SonnetVariant.servoChars →
        cmd.getD 0 (Char.ofNat 0) ≠ Char.ofNat 0 →
        SonnetVariant.processCommand st cmd =
          (st, ["Unknown command: " ++ String.mk cmd ++ "\n"])) :=
  ⟨structured_unknown_cmd, delimiter_unknown_cmd, sonnet_unknown_cmd⟩

/-- Witness for C6's amended theorem at concrete inputs: unknown first
byte 0x05 (binary variants) and character `'t'` (Sonnet variant). -/
theorem unknown_command_behavior_witness :
    StructuredBinary.processSerialInput [1700, 1700, 1700, 1700] [0x05, 0x00] =
      StructuredBinary.PollResult.done [1700, 1700, 1700, 1700]
        [StructuredBinary.RESP_ERROR] [0x00]
  ∧ BinaryProtocol.processCommand [1700, 1700, 1700, 1700] [0x05, 0x00] =
      ([1700, 1700, 1700, 1700], [])
  ∧ SonnetVariant.processCommand [1700, 1700, 1700, 1700] ['t'] =
      ([1700, 1700, 1700, 1700], ["Unknown command: " ++ String.mk ['t'] ++ "\n"]) :=
  ⟨unknown_command_behavior.1 _ 0x05 [0x00] (by decide) (by decide) (by decide),
    unknown_command_behavior.2.1 _ 0x05 0x00 [] (by decide) (by decide),
    unknown_command_behavior.2.2 _ ['t'] (by decide) (by decide) (by decide)⟩

/-- C7: the claim says every Position Store entry starts at 1700 in every
variant.  Three variants do initialize to 1700, but `main_arduino.cpp`
declares `servo_positions[4] = {2000, 2000, 2000, 2000}` and its `setup()`
only manages to move servo 0 to 1700 (the `'x'`, `'c'`, `'v'` cases are
missing from `handleServoCommand`), leaving channels 1-3 at 2000 before
any command is processed. -/
theorem startup_positions_by_variant :
    BinaryProtocol.initPositions = [1700, 1700, 1700, 1700]
  ∧ StructuredBinary.initPositions = [1700, 1700, 1700, 1700]
  ∧ SonnetVariant.initPositions = [1700, 1700, 1700, 1700]
  ∧ ArduinoVariant.initPositions = [2000, 2000, 2000, 2000]
  ∧ ArduinoVariant.setupPositions = [1700, 2000, 2000, 2000] :=
  ⟨by decide, by decide, by decide, by decide, by decide⟩

set_option maxRecDepth 20000 in
/-- C8 (counterexample): after 200 non-terminator bytes the Sonnet
decoder's buffer holds the first 127 of them — it has not been reset as
the claim states — and when a terminator finally arrives the truncated
127-byte frame is processed as a command rather than refused. -/
theorem sonnet_overflow_does_not_reset_buffer :
    (SonnetVariant.processSerialInput SonnetVariant.initPositions []
        (List.replicate 200 'A')).2.1 = List.replicate 127 'A'
  ∧ (SonnetVariant.processSerialInput SonnetVariant.initPositions []
        (List.replicate 200 'A' ++ ['\n'])).2.2 =
      ["Unknown command: " ++ String.mk (List.replicate 127 'A') ++ "\n"] :=
  ⟨by decide, by decide⟩

/-- C8 (amended): when accumulated bytes reach the 127-byte capacity before
a terminator arrives, the Sonnet decoder silently drops further
non-terminator bytes while keeping the buffered prefix; the overlong input
never corrupts subsequent decoding: any terminator empties the buffer, and
decoding composes over any split of the input, so frames after the
terminator decode as from a fresh decoder. -/
theorem sonnet_overflow_contained :
    (∀ st buf c, 127 ≤ List.length buf → c ≠ '\r' → c ≠ '\n' →
        SonnetVariant.processSerialByte st buf c = (st, buf, []))
  ∧ (∀ (input : List Char) (st : List Nat) (buf : List Char),
        (SonnetVariant.processSerialInput st buf (input ++ ['\n'])).2.1 = [])
  ∧ (∀ (xs ys : List Char) (st : List Nat) (buf : List Char),
        SonnetVariant.processSerialInput st buf (xs ++ ys) =
          ((SonnetVariant.processSerialInput (SonnetVariant.processSerialInput st buf xs).1
              (SonnetVariant.processSerialInput st buf xs).2.1 ys).1,
            (SonnetVariant.processSerialInput (SonnetVariant.processSerialInput st buf xs).1
              (SonnetVariant.processSerialInput st buf xs).2.1 ys).2.1,
            (SonnetVariant.processSerialInput st buf xs).2.2 ++
              (SonnetVariant.processSerialInput (SonnetVariant.processSerialInput st buf xs).1
                (SonnetVariant.processSerialInput st buf xs).2.1 ys).2.2)) :=
  ⟨sonnet_full_buffer_drops, sonnet_newline_clears, sonnet_processSerialInput_append⟩

set_option maxRecDepth 20000 in
/-- Witness for C8's amended theorem at a concrete input: with a full
buffer of 127 `'A'`s, a further `'A'` is dropped. -/
theorem sonnet_overflow_contained_witness :
    SonnetVariant.processSerialByte [1700, 1700, 1700, 1700] (List.replicate 127 'A') 'A' =
      ([1700, 1700, 1700, 1700], List.replicate 127 'A', []) :=
  sonnet_overflow_contained.1 _ _ _ (by decide) (by decide) (by decide)

/-- C9: every store write performed by a command is one of the three
configured pulse-widths 1100, 1400, 1700: after `moveServo`,
`setServoPosition`, the Sonnet `handleServoCommand`, or an arbitrary byte
sequence through the delimiter decoder, every Position Store cell either
keeps its previous value or holds a configured level. -/
theorem store_values_confined :
    (∀ st servo p i, (BinaryProtocol.moveServo st servo p).getD i 0 = st.getD i 0 ∨
        (BinaryProtocol.moveServo st servo p).getD i 0 ∈ pulseLevels)
  ∧ (∀ st idx p i, (StructuredBinary.setServoPosition st idx p).1.getD i 0 = st.getD i 0 ∨
        (StructuredBinary.setServoPosition st idx p).1.getD i 0 ∈ pulseLevels)
  ∧ (∀ st c i, (SonnetVariant.handleServoCommand st c).1.getD i 0 = st.getD i 0 ∨
        (SonnetVariant.handleServoCommand st c).1.getD i 0 ∈ pulseLevels)
  ∧ (∀ input st ds i,
        (BinaryProtocol.processSerialInput st ds input).1.getD i 0 = st.getD i 0 ∨
        (BinaryProtocol.processSerialInput st ds input).1.getD i 0 ∈ pulseLevels) :=
  ⟨moveServo_getD, setServoPosition_getD, sonnet_handleServoCommand_getD,
    processSerialInput_getD⟩

/-- C10: in the delimiter-binary variant a completed frame whose payload
has fewer than 2 bytes is discarded silently — no response bytes and no
Position Store change. -/
theorem short_frame_discarded (st : List Nat) (cmd : List Nat) (h : cmd.length < 2) :
    BinaryProtocol.processCommand st cmd = (st, []) := by
  unfold BinaryProtocol.processCommand
  rw [if_pos h]

/-- Witness for C10 at the concrete one-byte payload of frame `FF 01 FE`. -/
theorem short_frame_discarded_witness :
    BinaryProtocol.processCommand [1700, 1700, 1700, 1700] [BinaryProtocol.CMD_MOVE] =
      ([1700, 1700, 1700, 1700], []) :=
  short_frame_discarded _ _ (by decide)

end ServoShutter
